import Mathlib

/-
Verification development for the autoroute-manager pipeline
(src/autoroute/autoroute.py, class AutoRouteHandler).

The Python source is shallowly embedded below: paths and strings are
`List Char`, file metadata and the fingerprint ledger are explicit state,
and external collaborators (GDAL, the solver executables, pandas readers)
appear only through the values they hand back to the orchestration code.
-/

set_option autoImplicit false

namespace AutoRouteSpec

/-- Strings of the embedding, as lists of characters. -/
abbrev Str := List Char

/-- Abbreviation turning a Lean string literal into an embedded string. -/
def toL (s : String) : Str := s.toList

/-- `os.path.basename`: the part of the path after the last `/`. -/
def basename (p : Str) : Str := (p.reverse.takeWhile (fun c => c ≠ '/')).reverse

/-- The stem part of `os.path.splitext`: everything before the last `.`,
or the whole string when there is no dot. -/
def splitextStem (p : Str) : Str :=
  if p.contains '.' then (((p.reverse).dropWhile (fun c => c ≠ '.')).drop 1).reverse
  else p

/-- Python `s.split(sep)[0]`: the prefix of `s` before the first occurrence
of the (nonempty) separator `sep`, or all of `s` when `sep` never occurs. -/
def takeUntilSub (sep : Str) : Str → Str
  | [] => []
  | c :: rest => if sep.isPrefixOf (c :: rest) then [] else c :: takeUntilSub sep rest

/-- Python `needle in hay` on strings: substring containment. -/
def containsSub (needle : Str) : Str → Bool
  | [] => needle.isEmpty
  | c :: rest => needle.isPrefixOf (c :: rest) || containsSub needle rest

/-- Worker for `pyReplaceDel`; every step consumes at least one character
of the scanned string, so a fuel of `s.length` is always sufficient and
keeps the recursion structural (kernel-reducible). -/
def pyReplaceDelGo (old : Str) : Nat → Str → Str
  | _, [] => []
  | 0, s => s
  | fuel + 1, c :: rest =>
    if old ≠ [] ∧ old.isPrefixOf (c :: rest) then
      pyReplaceDelGo old fuel (rest.drop (old.length - 1))
    else
      c :: pyReplaceDelGo old fuel rest

/-- Python `s.replace(old, '')` for a nonempty `old`: delete every
(left-to-right, non-overlapping) occurrence of `old` in `s`. -/
def pyReplaceDel (old : Str) (s : Str) : Str := pyReplaceDelGo old s.length s

/-! ### Artifact keys and derived-file naming

`_zip_files` (autoroute.py lines 1131-1152) keys the DEM list by
`os.path.splitext(os.path.basename(f))[0]` and every stage-output list by
`os.path.splitext(os.path.basename(f))[0].split('__')[0]`.  The naming
scheme of each stage output is written next to the source line it embeds.
-/

/-- Matcher key used for the driving DEM list (line 1136). -/
def demKey (f : Str) : Str := splitextStem (basename f)

/-- Matcher key used for every stage-output list (lines 1137-1140). -/
def stageKey (f : Str) : Str := takeUntilSub (toL "__") (splitextStem (basename f))

/-- Buffered DEM path, `buffer_dem` line 375:
`DATA_DIR/dems/buffered/<stem>_buff.tif`. -/
def buffName (dataDir dem : Str) : Str :=
  dataDir ++ toL "/dems/buffered/" ++ splitextStem (basename dem) ++ toL "_buff.tif"

/-- Cropped DEM path, `crop` line 807: `DATA_DIR/dems/cropped/<stem>_crop.tif`. -/
def cropName (dataDir dem : Str) : Str :=
  dataDir ++ toL "/dems/cropped/" ++ splitextStem (basename dem) ++ toL "_crop.tif"

/-- Stream-raster path used by the cache-check loop of `create_strm_file`
(line 479): `DATA_DIR/stream_files/<stem>__strm.tif`. -/
def strmNameCache (dataDir dem : Str) : Str :=
  dataDir ++ toL "/stream_files/" ++ splitextStem (basename dem) ++ toL "__strm.tif"

/-- Stream-raster path used by the creation loop of `create_strm_file`
(line 545): `DATA_DIR/stream_files/<basename.split('.')[0] with '_buff'
deleted>__strm.tif`. -/
def strmNameCreate (dataDir dem : Str) : Str :=
  dataDir ++ toL "/stream_files/" ++
    pyReplaceDel (toL "_buff") (takeUntilSub (toL ".") (basename dem)) ++ toL "__strm.tif"

/-- Land-use mosaic path, `create_land_use` line 689:
`DATA_DIR/land_use/<basename.split('.')[0]>__lu.vrt` (the matching-CRS
branch keeps the `.vrt` extension). -/
def luName (dataDir dem : Str) : Str :=
  dataDir ++ toL "/land_use/" ++ takeUntilSub (toL ".") (basename dem) ++ toL "__lu.vrt"

/-- Row/col/id table path, `create_row_col_id_file` line 574:
`DATA_DIR/rapid_files/<basename.split('strm.')[0]>row_col_id.txt`. -/
def rowColName (dataDir strm : Str) : Str :=
  dataDir ++ toL "/rapid_files/" ++ takeUntilSub (toL "strm.") (basename strm) ++ toL "row_col_id.txt"

/-- Flood-flow file path, `create_flood_flowfile` line 654:
`DATA_DIR/flow_files/<basename.split('strm.')[0]>flow.txt`. -/
def flowName (dataDir strm : Str) : Str :=
  dataDir ++ toL "/flow_files/" ++ takeUntilSub (toL "strm.") (basename strm) ++ toL "flow.txt"

/-! ### Filesystem metadata and the fingerprint ledger

`_hash`, `hash_match`, `update_hash`, `create_key` (autoroute.py lines
1315-1339) fingerprint a file by the string
`f"{mtime}{size}{basename}"`; dependency arguments contribute either the
same metadata string (when they name an existing file) or their literal
string value.  `os.path.getmtime`/`getsize` return values of the host
filesystem, modelled here by the strings Python's f-string formatting
would produce for them.  `hashlib.blake2b` is an external digest; it is
modelled as a collision-free (identity) function on the fingerprint
string. -/

/-- Metadata of one file: the formatted modification time and size. -/
structure FileMeta where
  mtime : Str
  size : Str
deriving DecidableEq, Repr

/-- Mutable state the pipeline threads through: the filesystem's metadata
view and the fingerprint ledger (`self._file_hash_dict`). -/
structure St where
  files : List (Str × FileMeta)
  cache : List (Str × Str)
deriving DecidableEq, Repr

/-- First-match association-list lookup (Python `dict.get`). -/
def lookupA {β : Type} : List (Str × β) → Str → Option β
  | [], _ => none
  | kv :: rest, q => if kv.1 = q then some kv.2 else lookupA rest q

/-- Association-list overwrite (Python `dict[k] = v`). -/
def setA {β : Type} (l : List (Str × β)) (k : Str) (v : β) : List (Str × β) :=
  (k, v) :: l.filter (fun kv => kv.1 != k)

/-- `os.path.isfile` / `os.path.exists` over the modelled filesystem. -/
def isfile (s : St) (p : Str) : Bool := (lookupA s.files p).isSome

/-- The fingerprint contribution `f"{mtime}{size}{basename}"` of one file. -/
def metaStr (s : St) (p : Str) : Str :=
  match lookupA s.files p with
  | some m => m.mtime ++ m.size ++ basename p
  | none => []

/-- Model of `hashlib.blake2b(...).hexdigest()`: collisions of the real
digest are not relied upon by any claim, so the digest is the identity. -/
def blake2b (s : Str) : Str := s

/-- One dependency argument's contribution inside `_hash` (lines 1317-1322). -/
def hashArg (s : St) (arg : Str) : Str := if isfile s arg then metaStr s arg else arg

/-- `_hash(file_path, *args)` (lines 1315-1324).  `none` models the
`OSError` Python raises when the primary file does not exist. -/
def pyHash (s : St) (p : Str) (args : List Str) : Option Str :=
  if isfile s p then some (blake2b (metaStr s p ++ (args.map (hashArg s)).flatten)) else none

/-- `create_key(file)` for the single-argument form used everywhere
(lines 1332-1339). -/
def create_key (s : St) (p : Str) : Str :=
  blake2b (if isfile s p then metaStr s p else p)

/-- `hash_match(file, *args)` (lines 1326-1327); read-only. -/
def hash_match (s : St) (p : Str) (args : List Str) : Option Bool :=
  (pyHash s p args).map (fun h => h == (lookupA s.cache (create_key s p)).getD [])

/-- `update_hash(file, *args)` (lines 1329-1330): records the fingerprint. -/
def update_hash (s : St) (p : Str) (args : List Str) : Option St :=
  (pyHash s p args).map (fun h => { s with cache := setA s.cache (create_key s p) h })

/-- A collaborator (gdal.BuildVRT / gdal.Warp / file write) creating or
replacing the file at `p` with fresh metadata `m`. -/
def writeFile (s : St) (p : Str) (m : FileMeta) : St :=
  { s with files := setA s.files p m }

/-- Touching a file: its modification time changes, nothing else. -/
def setMtime (s : St) (p : Str) (t : Str) : St :=
  { s with files := s.files.map (fun kv => if kv.1 = p then (kv.1, { kv.2 with mtime := t }) else kv) }

/-- `os.remove` over a set of paths (missing ones are simply not present). -/
def deleteFiles (s : St) (ps : List Str) : St :=
  { s with files := s.files.filter (fun kv => !(ps.contains kv.1)) }

/-! ### Stage runners (buffer, crop, land use)

Each runner is embedded with its caching control flow intact; the
geometry arithmetic and the GDAL calls are collaborators, represented by
the `openable` oracle (can `open_w_gdal` open this path), the `demsFound`
/ `luFilesOk` flags (did the discovery step find source files), and the
metadata the engine's write gives the output file. -/

/-- `buffer_dem` (lines 341-390).  Cache check (line 376):
`exists(buffered) and not OVERWRITE and hash_match(buffered, dem)` →
return the buffered path untouched; otherwise build the VRT and
`update_hash(buffered, dem)`. -/
def buffer_dem (overwrite : Bool) (openable : Str → Bool) (demsFound : Bool)
    (vrtMeta : FileMeta) (dataDir : Str) (s : St) (dem : Str) : Option Str × St :=
  if !(openable dem) then (none, s)
  else
    let buffered := buffName dataDir dem
    if isfile s buffered && !overwrite && (hash_match s buffered [dem] == some true) then
      (some buffered, s)
    else if !demsFound then (none, s)
    else
      let s1 := writeFile s buffered vrtMeta
      match update_hash s1 buffered [dem] with
      | some s2 => (some buffered, s2)
      | none => (none, s1)

/-- `crop` (lines 791-818).  Cache check (line 808):
`not OVERWRITE and exists(cropped) and hash_match(dem, cropped)` → the
source executes a bare `return` (line 810), i.e. yields `None`, not the
cropped path; otherwise build the VRT and `update_hash(dem, cropped)`. -/
def crop (overwrite : Bool) (openable : Str → Bool)
    (vrtMeta : FileMeta) (dataDir : Str) (s : St) (dem : Str) : Option Str × St :=
  if !(openable dem) then (none, s)
  else
    let cropped := cropName dataDir dem
    if !overwrite && isfile s cropped && (hash_match s dem [cropped] == some true) then
      (none, s)
    else
      let s1 := writeFile s cropped vrtMeta
      match update_hash s1 dem [cropped] with
      | some s2 => (some cropped, s2)
      | none => (none, s1)

/-- `create_land_use` (lines 687-769), matching-CRS branch (the output
keeps the `.vrt` name).  Cache check (line 690):
`not OVERWRITE and exists(lu) and hash_match(dem, lu)` → return the path.
After building the mosaic the source calls `self.hash_match(dem, lu_file)`
(line 768) — a read-only query whose result is discarded — so no
fingerprint is ever recorded for the output. -/
def create_land_use (overwrite : Bool) (openable : Str → Bool) (luFilesOk : Bool)
    (warpMeta : FileMeta) (dataDir : Str) (s : St) (dem : Str) : Option Str × St :=
  let lu := luName dataDir dem
  if !overwrite && isfile s lu && (hash_match s dem [lu] == some true) then
    (some lu, s)
  else if !(openable dem) then (none, s)
  else if !luFilesOk then (none, s)
  else
    let s1 := writeFile s lu warpMeta
    let _ := hash_match s1 dem [lu]
    (some lu, s1)

/-! ### Concrete fixtures shared by the evaluation theorems -/

/-- Example working directory. -/
def fxDataDir : Str := toL "/data"

/-- Example source DEM path. -/
def fxDem : Str := toL "/dems/src/1.tif"

/-- Metadata of the source DEM. -/
def fxMeta0 : FileMeta := ⟨toL "100", toL "7"⟩

/-- Metadata a first engine write produces. -/
def fxMeta1 : FileMeta := ⟨toL "101", toL "8"⟩

/-- Metadata a second engine write produces (later mtime). -/
def fxMeta2 : FileMeta := ⟨toL "102", toL "9"⟩

/-- Initial state: only the source DEM exists, the ledger is empty. -/
def fxSt0 : St := ⟨[(fxDem, fxMeta0)], []⟩

/-- Oracle under which `open_w_gdal` succeeds on every path. -/
def fxOpen : Str → Bool := fun _ => true

/-- A dependency file for the cache scenarios. -/
def fxC3dep : Str := toL "/x/dep.txt"

/-- Cache-scenario state: the DEM and the dependency file exist. -/
def fxC3st : St := ⟨[(fxDem, fxMeta0), (fxC3dep, fxMeta1)], []⟩

/-- Ledger state right after `update_hash(fxDem, fxC3dep)`. -/
def fxC3s1 : St := (update_hash fxC3st fxDem [fxC3dep]).getD fxC3st

/-- Ledger state right after `update_hash(fxDem, "ctxA")` (literal dep). -/
def fxC3s2 : St := (update_hash fxC3st fxDem [toL "ctxA"]).getD fxC3st

/-! ### Spatial-unit inference in the control-file serializer

`create_mifn_file` (lines 848-867) opens the DEM, asks the spatial
reference whether it is projected and for its unit name, and either
writes a `Spatial_Units` card or raises `ValueError`. -/

deriving instance DecidableEq for Except

/-- What the collaborator `osr.SpatialReference` reports for a DEM. -/
structure SRSInfo where
  projected : Bool
  linearUnitsName : Str
  angularUnitsName : Str
deriving DecidableEq, Repr

/-- The `Spatial_Units` decision of `create_mifn_file` (lines 853-867):
`.ok` is the emitted argument, `.error` the `ValueError` message. -/
def spatialUnits (srs : SRSInfo) : Except Str Str :=
  if srs.projected then
    let units := srs.linearUnitsName.map Char.toLower
    if containsSub (toL "meter") units then
      if containsSub (toL "k") units then Except.ok (toL "km") else Except.ok (toL "m")
    else Except.error (toL "Unsupported units: " ++ units)
  else
    let units := srs.angularUnitsName.map Char.toLower
    if containsSub (toL "degree") units then Except.ok (toL "deg")
    else Except.error (toL "Unsupported units: " ++ units)

/-- `pool.starmap(self.create_mifn_file, pairs)` (run, line 140): results
are collected in task order and the first raised exception propagates to
the caller, aborting the whole step; no surrounding handler exists in
`run`.  Only the units-dependent part of `create_mifn_file` can raise
here, so each tile is represented by its DEM's `SRSInfo`. -/
def starmapMifns : List SRSInfo → Except Str (List Str)
  | [] => Except.ok []
  | t :: rest =>
    match spatialUnits t with
    | Except.error e => Except.error e
    | Except.ok u =>
      match starmapMifns rest with
      | Except.error e => Except.error e
      | Except.ok us => Except.ok (u :: us)

/-- A DEM whose projection reports plain metres. -/
def srsMeter : SRSInfo := ⟨true, toL "meter", []⟩

/-- A DEM whose projection reports kilometres. -/
def srsKilometer : SRSInfo := ⟨true, toL "kilometer", []⟩

/-- A geographic DEM in degrees. -/
def srsDegree : SRSInfo := ⟨false, [], toL "degree"⟩

/-- A projected DEM in feet: no supported unit substring. -/
def srsFoot : SRSInfo := ⟨true, toL "us survey foot", []⟩

/-! ### Buffer-extent arithmetic

`buffer_dem` (lines 361-374) expands the extent by `BUFFER_DISTANCE` on
all four sides and clamps to the geographic domain only under the literal
test `if buffer_distance == 0.1`. -/

/-- A bounding box (minx, miny, maxx, maxy), coordinates as rationals. -/
structure Extent where
  minx : ℚ
  miny : ℚ
  maxx : ℚ
  maxy : ℚ
deriving DecidableEq, Repr

/-- Extent expansion and conditional clamp of `buffer_dem` (lines 361-374). -/
def bufferExtent (bufferDistance : ℚ) (e : Extent) : Extent :=
  let minx := e.minx - bufferDistance
  let miny := e.miny - bufferDistance
  let maxx := e.maxx + bufferDistance
  let maxy := e.maxy + bufferDistance
  if bufferDistance = 1 / 10 then
    ⟨max minx (-180), max miny (-90), min maxx 180, min maxy 90⟩
  else
    ⟨minx, miny, maxx, maxy⟩

/-- An extent close to the geographic domain edges. -/
def fxExtent : Extent := ⟨-1799/10, -899/10, 1799/10, 899/10⟩

/-! ### Classification of an external solver run

`run_autoroute` / `run_floodspreader` (lines 1180-1189 and 1225-1234)
scan the captured standard output line by line. -/

/-- The benign false-positive test of line 1182:
`any({'Perimeter' in l, 'Area' in l, 'Finder' in l})`. -/
def benignLine (l : Str) : Bool :=
  containsSub (toL "Perimeter") l || containsSub (toL "Area") l || containsSub (toL "Finder") l

/-- One line flags the run as failed (line 1182, Python precedence
`(A and not B) or C`): it contains `error` case-insensitively and is not
benign, or it contains `PROBLEMS`. -/
def errorLine (l : Str) : Bool :=
  (containsSub (toL "error") (l.map Char.toLower) && !(benignLine l)) || containsSub (toL "PROBLEMS") l

/-- The run is classified as failed iff some stdout line flags it; the
process exit code plays no part in this classification (it is only used
for a second, separate log message). -/
def runFailedLines (lines : List Str) : Bool := lines.any errorLine

/-! ### Row/col/id table builder

`create_row_col_id_file` (lines 571-649).  The flow table (pandas frame)
is modelled as an id → flow-value list; the stream raster as a row-major
grid of natural numbers (zero = "no stream").  Rows containing NaN are
already dropped by the `.dropna()` the source performs on clean numeric
data. -/

/-- `np.where(data_array > 0)` paired with the cell values, in row-major
order: all (row, col, value) triples with a nonzero value. -/
def nonzeroCells (grid : List (List Nat)) : List (Nat × Nat × Nat) :=
  (grid.enum.map (fun rc => rc.2.enum.filterMap
    (fun cv => if 0 < cv.2 then some (rc.1, cv.1, cv.2) else none))).flatten

/-- First matching row of the (deduplicated) flow table for an id. -/
def lookupId (df : List (Nat × Nat)) (v : Nat) : Option Nat :=
  match df with
  | [] => none
  | r :: rest => if r.1 = v then some r.2 else lookupId rest v

/-- Worker for `dedupById`, carrying the ids already seen. -/
def dedupByIdAux (seen : List Nat) : List (Nat × Nat) → List (Nat × Nat)
  | [] => []
  | r :: rest =>
    if seen.contains r.1 then dedupByIdAux seen rest
    else r :: dedupByIdAux (r.1 :: seen) rest

/-- `df.drop_duplicates(id_column)` (line 620): keep the first row of each
identifier. -/
def dedupById (df : List (Nat × Nat)) : List (Nat × Nat) := dedupByIdAux [] df

/-- The written table (lines 642-647): the row/col/value frame of every
nonzero cell, `.merge(df, on=id, how='left')` with the (unique-id) flow
table, then `.fillna(0)` — an unmatched id keeps its row with flow 0. -/
def rowColTable (df : List (Nat × Nat)) (grid : List (List Nat)) :
    List (Nat × Nat × Nat × Nat) :=
  (nonzeroCells grid).map (fun c => (c.1, c.2.1, c.2.2, (lookupId df c.2.2).getD 0))

/-- `matches == 0` (lines 637-640): no id of the flow table occurs among
the nonzero raster values, which only triggers a warning. -/
def rowColWarned (df : List (Nat × Nat)) (grid : List (List Nat)) : Bool :=
  (df.filter (fun r => ((nonzeroCells grid).map (fun c => c.2.2)).contains r.1)).length == 0

/-- `create_row_col_id_file` after column resolution: `none` is the early
`return` when the deduplicated table is empty (line 624); otherwise the
warning flag and the written table. -/
def create_row_col_id (df0 : List (Nat × Nat)) (grid : List (List Nat)) :
    Option (Bool × List (Nat × Nat × Nat × Nat)) :=
  let df := dedupById df0
  if df.isEmpty then none
  else some (rowColWarned df grid, rowColTable df grid)

/-- The inner join the claim describes, written from the spec's words
("inner-joins the table against the nonzero cell values ... containing
exactly the matched rows") for comparison with `rowColTable`. -/
def rowColInnerJoinSpec (df0 : List (Nat × Nat)) (grid : List (List Nat)) :
    List (Nat × Nat × Nat × Nat) :=
  (nonzeroCells grid).filterMap
    (fun c => (lookupId (dedupById df0) c.2.2).map (fun q => (c.1, c.2.1, c.2.2, q)))

/-! ### The artifact matcher `_zip_files` (lines 1131-1152)

The DEM list drives the join; it is filtered by raster extension.  The
stage lists arrive with their `None` entries already removed (the source
comprehensions test `f is not None`; a `None` in the DEM list itself
would raise before this point and is outside the claim). -/

/-- `f.endswith('.tif') or f.endswith('.vrt')` (line 1136). -/
def validRasterExt (f : Str) : Bool :=
  (toL ".tif").isSuffixOf f || (toL ".vrt").isSuffixOf f

/-- A Python dict comprehension `{key(f): f for f in fs}`: entries are
inserted in list order, a later duplicate key overwriting the earlier. -/
def buildDict (key : Str → Str) (fs : List Str) : List (Str × Str) :=
  fs.foldl (fun acc f => setA acc (key f) f) []

/-- The tuple built for one DEM-dict entry key: the DEM path and the
`dict.get(key, '')` lookups of the four stage dictionaries
(lines 1143-1148). -/
def bundleFor (strms lus rcs flows : List Str) (f : Str) :
    Str × Str × Str × Str × Str :=
  (f, (lookupA (buildDict stageKey strms) (demKey f)).getD [],
   (lookupA (buildDict stageKey lus) (demKey f)).getD [],
   (lookupA (buildDict stageKey rcs) (demKey f)).getD [],
   (lookupA (buildDict stageKey flows) (demKey f)).getD [])

/-- `_zip_files` (lines 1131-1152): build the five per-stage dicts, then
one tuple per DEM-dict entry, collected into a set. -/
def zipFiles (dems strms lus rcs flows : List Str) :
    Finset (Str × Str × Str × Str × Str) :=
  ((buildDict demKey (dems.filter validRasterExt)).map (fun kv =>
    (kv.2, (lookupA (buildDict stageKey strms) kv.1).getD [],
     (lookupA (buildDict stageKey lus) kv.1).getD [],
     (lookupA (buildDict stageKey rcs) kv.1).getD [],
     (lookupA (buildDict stageKey flows) kv.1).getD []))).toFinset

/-! ### The control-file line writer `_write` (lines 1110-1120)

The argument may be a Python string or integer; the card is written with
a tab and the argument exactly when the argument is truthy, else the
bare card. -/

/-- The Python values `_write` receives in the claims at hand. -/
inductive PyVal where
  | str : Str → PyVal
  | int : Int → PyVal
deriving DecidableEq, Repr

/-- Python truthiness: the empty string and zero are falsy. -/
def PyVal.truthy : PyVal → Bool
  | PyVal.str s => !s.isEmpty
  | PyVal.int n => n != 0

/-- The f-string rendering of the argument. -/
def PyVal.fmt : PyVal → Str
  | PyVal.str s => s
  | PyVal.int n => toL (toString n)

/-- `_write` on the list-shaped output buffer (lines 1116-1120). -/
def writeCard (out : List Str) (card : Str) (arg : PyVal) : List Str :=
  if arg.truthy then out ++ [card ++ '\t' :: arg.fmt] else out ++ [card]

/-- The bathymetry-method block of `create_mifn_file` (lines 990-1007). -/
def bathyMethodLines (bathyMethod : Str) (xMaxDepth yShallow : PyVal) : List Str :=
  if bathyMethod = toL "Parabolic" then
    writeCard [] (toL "Bathymetry_Method") (PyVal.int 0)
  else if bathyMethod = toL "Left Bank Quadratic" then
    writeCard (writeCard (writeCard [] (toL "Bathymetry_Method") (PyVal.int 1))
      (toL "Bathymetry_XMaxDepth") xMaxDepth) (toL "Bathymetry_YShallow") yShallow
  else if bathyMethod = toL "Right Bank Quadratic" then
    writeCard (writeCard (writeCard [] (toL "Bathymetry_Method") (PyVal.int 2))
      (toL "Bathymetry_XMaxDepth") xMaxDepth) (toL "Bathymetry_YShallow") yShallow
  else if bathyMethod = toL "Double Quadratic" then
    writeCard (writeCard (writeCard [] (toL "Bathymetry_Method") (PyVal.int 3))
      (toL "Bathymetry_XMaxDepth") xMaxDepth) (toL "Bathymetry_YShallow") yShallow
  else if bathyMethod = toL "Trapezoidal" then
    writeCard (writeCard [] (toL "Bathymetry_Method") (PyVal.int 4))
      (toL "Bathymetry_XMaxDepth") xMaxDepth
  else
    writeCard [] (toL "Bathymetry_Method") (PyVal.int 5)

/-- The `Use_Prev_D_4_XS` block (lines 931-934): emitted only when the
setting is exactly 0 (with argument 0, which is falsy); any other value
than 0 or 1 merely logs a warning. -/
def usePrevD4XSLines (usePrev : Int) : List Str :=
  if usePrev = 0 then writeCard [] (toL "Use_Prev_D_4_XS") (PyVal.int 0) else []

/-! ### The flood-spreader stage `run_floodspreader` (lines 1196-1237) -/

/-- The output-map set of the control file:
`{fld, dep, vel, wse, fs_bathy} - {""}` (line 1210), as a duplicate-free
list. -/
def fsMaps (fld dep vel wse bathy : Str) : List Str :=
  ([fld, dep, vel, wse, bathy].filter (fun m => !m.isEmpty)).dedup

/-- Outcome of the stage up to the external invocation. -/
inductive PrepResult where
  | cacheHit : PrepResult
  | raised : PrepResult
  | proceed : St → PrepResult
deriving DecidableEq, Repr

/-- Lines 1212-1215: the cache check
`not OVERWRITE and all(exists(m)) and hash_match(mifn, *maps)` returns
early; `raised` models the exception `hash_match` raises when the control
file itself is missing (caught by the surrounding handler, line 1221,
before anything is deleted); otherwise every existing output map is
removed (`os.remove`) before the subprocess starts. -/
def floodspreaderPrep (overwrite : Bool) (s : St) (mifn : Str) (maps : List Str) : PrepResult :=
  if !overwrite && maps.all (fun m => isfile s m) then
    match hash_match s mifn maps with
    | none => PrepResult.raised
    | some true => PrepResult.cacheHit
    | some false => PrepResult.proceed (deleteFiles s maps)
  else
    PrepResult.proceed (deleteFiles s maps)

/-- Lines 1217-1237 after the deletion: the external process writes
whatever files it writes (`extWrites`; a failed run may write none), the
error classification only logs, and `update_hash(mifn, *maps)` touches
the ledger only.  Nothing restores a previously deleted output. -/
def runFloodspreaderPost (s2 : St) (extWrites : List (Str × FileMeta))
    (mifn : Str) (maps : List Str) : St :=
  let s3 := extWrites.foldl (fun a pm => writeFile a pm.1 pm.2) s2
  (update_hash s3 mifn maps).getD s3

/-- Control-file path fixture for the flood-spreader scenario. -/
def fxC10mifn : Str := toL "/data/mifns/1__mifn.txt"

/-- An existing flood-map output fixture. -/
def fxC10map : Str := toL "/data/flood/1__flood.tif"

/-- Flood-spreader scenario state: the control file and one output exist. -/
def fxC10st : St := ⟨[(fxC10mifn, fxMeta0), (fxC10map, fxMeta1)], []⟩

end AutoRouteSpec

namespace AutoRouteSpec

/-- Claim C1: refuted on the code.  For the buffered pipeline the stream
raster created for the buffered tile `1_buff.tif` (creation loop,
line 545, which deletes the `_buff` marker) is `1__strm.tif`, whose
matcher key is `1`, while the driving DEM entry for the very same logical
tile has matcher key `1_buff`; moreover the creation loop's file name
disagrees with the file name the cache-check loop of the same function
(line 479) looks for. -/
theorem c1_buffer_key_mismatch :
    stageKey (strmNameCreate (toL "/data") (buffName (toL "/data") (toL "1.tif")))
        ≠ demKey (buffName (toL "/data") (toL "1.tif"))
    ∧ strmNameCreate (toL "/data") (buffName (toL "/data") (toL "1.tif"))
        ≠ strmNameCache (toL "/data") (buffName (toL "/data") (toL "1.tif")) := by
  decide

/-- Claim C2: refuted on the code.  With unchanged inputs and
`OVERWRITE = false`: the first `crop` run returns the cropped path but the
second run's cache hit executes a bare `return` and yields `None`
(line 810); `create_land_use` never records a fingerprint (line 768 calls
`hash_match` instead of `update_hash`), so its second run rebuilds and
rewrites the mosaic (the output's metadata becomes that of the second
write).  `buffer_dem`, by contrast, is idempotent: its second run returns
the same path and leaves the state untouched. -/
theorem c2_crop_and_land_use_not_idempotent :
    (crop false fxOpen fxMeta1 fxDataDir fxSt0 fxDem).1 = some (cropName fxDataDir fxDem)
    ∧ (crop false fxOpen fxMeta2 fxDataDir
        (crop false fxOpen fxMeta1 fxDataDir fxSt0 fxDem).2 fxDem).1 = none
    ∧ (create_land_use false fxOpen true fxMeta1 fxDataDir fxSt0 fxDem).1
        = some (luName fxDataDir fxDem)
    ∧ lookupA ((create_land_use false fxOpen true fxMeta2 fxDataDir
        (create_land_use false fxOpen true fxMeta1 fxDataDir fxSt0 fxDem).2 fxDem).2).files
        (luName fxDataDir fxDem) = some fxMeta2
    ∧ buffer_dem false fxOpen true fxMeta2 fxDataDir
        (buffer_dem false fxOpen true fxMeta1 fxDataDir fxSt0 fxDem).2 fxDem
      = (some (buffName fxDataDir fxDem),
         (buffer_dem false fxOpen true fxMeta1 fxDataDir fxSt0 fxDem).2) := by
  decide

/-! ### Helper lemmas for the fingerprint cache -/

theorem lookupA_setA_self {β : Type} (l : List (Str × β)) (k : Str) (v : β) :
    lookupA (setA l k v) k = some v := by
  simp [setA, lookupA]

theorem lookupA_map_touch (l : List (Str × FileMeta)) (pp q t : Str) :
    lookupA (l.map (fun kv => if kv.1 = pp then (kv.1, { kv.2 with mtime := t }) else kv)) q
      = if q = pp then (lookupA l q).map (fun m => { m with mtime := t })
        else lookupA l q := by
  induction l with
  | nil => by_cases hqp : q = pp <;> simp [lookupA, hqp]
  | cons kv rest ih =>
    by_cases hk : kv.1 = pp <;> by_cases hq : kv.1 = q <;> by_cases hqp : q = pp <;>
      simp_all [lookupA]

theorem lookupA_setMtime (s : St) (pp q t : Str) :
    lookupA (setMtime s pp t).files q
      = if q = pp then (lookupA s.files q).map (fun m => { m with mtime := t })
        else lookupA s.files q :=
  lookupA_map_touch s.files pp q t

theorem hash_match_after_update (s : St) (p : Str) (args : List Str) (s1 : St)
    (h : update_hash s p args = some s1) :
    hash_match s1 p args = some true := by
  unfold update_hash at h
  cases hph : pyHash s p args with
  | none => rw [hph] at h; exact absurd h (by simp)
  | some H =>
    rw [hph] at h
    simp only [Option.map_some'] at h
    have hs1 := Option.some.inj h
    rw [← hs1]
    show (pyHash s p args).map
        (fun d => d == (lookupA (setA s.cache (create_key s p) H) (create_key s p)).getD [])
          = some true
    rw [hph, lookupA_setA_self]
    simp

/-- Claim C3: confirmed.  In any state where `p` exists: immediately after
`update_hash(p, depf)` with metadata unchanged, `hash_match(p, depf)` is
true; touching the dependency file's modification time flips it to false;
and after `update_hash(p, lit)` with a literal-string dependency, querying
with a different literal `lit2` yields false.  (`hash_match` is read-only
by the very type of its embedding: it returns no state.) -/
theorem c3_cache_correctness
    (s s1 s2 : St) (p depf lit lit2 t : Str) (dm : FileMeta)
    (hp : isfile s p = true)
    (hdf : lookupA s.files depf = some dm)
    (hne : p ≠ depf)
    (hlit : isfile s lit = false)
    (hlit2 : isfile s lit2 = false)
    (hll : lit ≠ lit2)
    (ht : t ≠ dm.mtime)
    (h1 : update_hash s p [depf] = some s1)
    (h2 : update_hash s p [lit] = some s2) :
    hash_match s1 p [depf] = some true
    ∧ hash_match (setMtime s1 depf t) p [depf] = some false
    ∧ hash_match s2 p [lit2] = some false := by
  obtain ⟨pm, hlp⟩ := Option.isSome_iff_exists.mp hp
  have hdfile : isfile s depf = true := by simp [isfile, hdf]
  have hmsp : metaStr s p = pm.mtime ++ pm.size ++ basename p := by
    simp [metaStr, hlp]
  have hmsd : metaStr s depf = dm.mtime ++ dm.size ++ basename depf := by
    simp [metaStr, hdf]
  have hkeyS : create_key s p = pm.mtime ++ pm.size ++ basename p := by
    simp [create_key, blake2b, hp, hmsp]
  have hH1 : pyHash s p [depf]
      = some ((pm.mtime ++ pm.size ++ basename p) ++ (dm.mtime ++ dm.size ++ basename depf)) := by
    simp [pyHash, hp, blake2b, hashArg, hdfile, hmsp, hmsd]
  have hH2 : pyHash s p [lit] = some ((pm.mtime ++ pm.size ++ basename p) ++ lit) := by
    simp [pyHash, hp, blake2b, hashArg, hlit, hmsp]
  have hs1 : s1 = { s with cache := setA s.cache (create_key s p) ((pm.mtime ++ pm.size ++ basename p) ++ (dm.mtime ++ dm.size ++ basename depf)) } := by
    unfold update_hash at h1
    rw [hH1] at h1
    simpa using h1.symm
  have hs2 : s2 = { s with cache := setA s.cache (create_key s p) ((pm.mtime ++ pm.size ++ basename p) ++ lit) } := by
    unfold update_hash at h2
    rw [hH2] at h2
    simpa using h2.symm
  have hs1files : s1.files = s.files := by rw [hs1]
  have hs1cache : s1.cache = setA s.cache (create_key s p) ((pm.mtime ++ pm.size ++ basename p) ++ (dm.mtime ++ dm.size ++ basename depf)) := by
    rw [hs1]
  have hs2files : s2.files = s.files := by rw [hs2]
  have hs2cache : s2.cache = setA s.cache (create_key s p) ((pm.mtime ++ pm.size ++ basename p) ++ lit) := by
    rw [hs2]
  refine ⟨hash_match_after_update s p [depf] s1 h1, ?_, ?_⟩
  · -- (b) touching the dependency's mtime flips the answer to false
    have hfP : lookupA (setMtime s1 depf t).files p = some pm := by
      rw [lookupA_setMtime s1 depf p t, if_neg hne, hs1files, hlp]
    have hfD : lookupA (setMtime s1 depf t).files depf = some { dm with mtime := t } := by
      rw [lookupA_setMtime s1 depf depf t, if_pos rfl, hs1files, hdf]
      rfl
    have hisP : isfile (setMtime s1 depf t) p = true := by simp [isfile, hfP]
    have hisD : isfile (setMtime s1 depf t) depf = true := by simp [isfile, hfD]
    have hmP : metaStr (setMtime s1 depf t) p = pm.mtime ++ pm.size ++ basename p := by
      simp [metaStr, hfP]
    have hmD : metaStr (setMtime s1 depf t) depf = t ++ dm.size ++ basename depf := by
      simp [metaStr, hfD]
    have hkey2 : create_key (setMtime s1 depf t) p = pm.mtime ++ pm.size ++ basename p := by
      simp [create_key, blake2b, hisP, hmP]
    have hph2 : pyHash (setMtime s1 depf t) p [depf]
        = some ((pm.mtime ++ pm.size ++ basename p) ++ (t ++ dm.size ++ basename depf)) := by
      simp [pyHash, hisP, blake2b, hashArg, hisD, hmP, hmD]
    have hcache2 : (setMtime s1 depf t).cache = s1.cache := rfl
    have hstore : lookupA (setMtime s1 depf t).cache (create_key (setMtime s1 depf t) p)
        = some ((pm.mtime ++ pm.size ++ basename p) ++ (dm.mtime ++ dm.size ++ basename depf)) := by
      rw [hcache2, hs1cache, hkey2, ← hkeyS, lookupA_setA_self]
    simp only [hash_match, hph2, Option.map_some', hstore, Option.getD_some]
    simpa using ht
  · -- (c) a different literal-string dependency yields false
    have hisP2 : isfile s2 p = true := by
      simp only [isfile, hs2files]
      exact hp
    have hisL2 : isfile s2 lit2 = false := by
      simp only [isfile, hs2files]
      exact hlit2
    have hmP2 : metaStr s2 p = pm.mtime ++ pm.size ++ basename p := by
      simp [metaStr, hs2files, hlp]
    have hkey3 : create_key s2 p = pm.mtime ++ pm.size ++ basename p := by
      simp [create_key, blake2b, hisP2, hmP2]
    have hph3 : pyHash s2 p [lit2] = some ((pm.mtime ++ pm.size ++ basename p) ++ lit2) := by
      simp [pyHash, hisP2, blake2b, hashArg, hisL2, hmP2]
    have hstore2 : lookupA s2.cache (create_key s2 p)
        = some ((pm.mtime ++ pm.size ++ basename p) ++ lit) := by
      rw [hs2cache, hkey3, ← hkeyS, lookupA_setA_self]
    simp only [hash_match, hph3, Option.map_some', hstore2, Option.getD_some]
    simpa using fun hh => hll hh.symm

/-- Witness for C3 at a concrete state (the DEM and one dependency file
exist; `"ctxA"`/`"ctxB"` are literal dependency strings). -/
theorem c3_cache_correctness_witness :
    hash_match fxC3s1 fxDem [fxC3dep] = some true
    ∧ hash_match (setMtime fxC3s1 fxC3dep (toL "999")) fxDem [fxC3dep] = some false
    ∧ hash_match fxC3s2 fxDem [toL "ctxB"] = some false :=
  c3_cache_correctness fxC3st fxC3s1 fxC3s2 fxDem fxC3dep (toL "ctxA") (toL "ctxB")
    (toL "999") fxMeta1 (by decide) (by decide) (by decide) (by decide) (by decide)
    (by decide) (by decide) (by decide) (by decide)

/-! ### Helper lemmas for the starmap step -/

theorem starmapMifns_error (tiles : List SRSInfo) (t : SRSInfo) (ht : t ∈ tiles) (e : Str)
    (he : spatialUnits t = Except.error e) :
    ∃ e2, starmapMifns tiles = Except.error e2 := by
  induction tiles with
  | nil => cases ht
  | cons a rest ih =>
    cases ht with
    | head => exact ⟨e, by simp [starmapMifns, he]⟩
    | tail _ hmem =>
      obtain ⟨e2, he2⟩ := ih hmem
      cases hsu : spatialUnits a with
      | error ea => exact ⟨ea, by simp [starmapMifns, hsu]⟩
      | ok u => exact ⟨e2, by simp [starmapMifns, hsu, he2]⟩

theorem starmapMifns_ok (tiles : List SRSInfo)
    (h : ∀ t ∈ tiles, ∃ u, spatialUnits t = Except.ok u) :
    ∃ us, starmapMifns tiles = Except.ok us := by
  induction tiles with
  | nil => exact ⟨[], rfl⟩
  | cons a rest ih =>
    obtain ⟨u, hu⟩ := h a (List.mem_cons_self a rest)
    obtain ⟨us, hus⟩ := ih (fun t htm => h t (List.mem_cons_of_mem a htm))
    exact ⟨u :: us, by simp [starmapMifns, hu, hus]⟩

/-- Claim C4, counterexample to the error-handling half.  A batch of two
tiles, one in unsupported units (feet) and one in metres: the meter tile
alone serializes fine, but the batched `pool.starmap` call re-raises the
foot tile's `ValueError`, so the step yields no result at all — the other
tile does not continue, contradicting "fatal to the owning tile only". -/
theorem c4_units_error_aborts_batch :
    starmapMifns [srsFoot, srsMeter] = Except.error (toL "Unsupported units: us survey foot")
    ∧ spatialUnits srsMeter = Except.ok (toL "m") := by
  decide

/-- Claim C4 as amended: the unit mapping itself holds (projected metres →
"m", projected kilometres → "km", geographic degrees → "deg", anything
else raises `ValueError`), but the error propagates out of
`pool.starmap`, aborting the control-file step for the whole batch
instead of failing only the owning tile. -/
theorem c4_units_mapping_and_propagation :
    (∀ srs : SRSInfo, srs.projected = true →
       containsSub (toL "meter") (srs.linearUnitsName.map Char.toLower) = true →
       containsSub (toL "k") (srs.linearUnitsName.map Char.toLower) = false →
       spatialUnits srs = Except.ok (toL "m"))
    ∧ (∀ srs : SRSInfo, srs.projected = true →
       containsSub (toL "meter") (srs.linearUnitsName.map Char.toLower) = true →
       containsSub (toL "k") (srs.linearUnitsName.map Char.toLower) = true →
       spatialUnits srs = Except.ok (toL "km"))
    ∧ (∀ srs : SRSInfo, srs.projected = false →
       containsSub (toL "degree") (srs.angularUnitsName.map Char.toLower) = true →
       spatialUnits srs = Except.ok (toL "deg"))
    ∧ (∀ srs : SRSInfo, srs.projected = true →
       containsSub (toL "meter") (srs.linearUnitsName.map Char.toLower) = false →
       spatialUnits srs = Except.error (toL "Unsupported units: " ++ srs.linearUnitsName.map Char.toLower))
    ∧ (∀ srs : SRSInfo, srs.projected = false →
       containsSub (toL "degree") (srs.angularUnitsName.map Char.toLower) = false →
       spatialUnits srs = Except.error (toL "Unsupported units: " ++ srs.angularUnitsName.map Char.toLower))
    ∧ (∀ tiles : List SRSInfo, ∀ t ∈ tiles, ∀ e, spatialUnits t = Except.error e →
         ∃ e2, starmapMifns tiles = Except.error e2)
    ∧ (∀ tiles : List SRSInfo, (∀ t ∈ tiles, ∃ u, spatialUnits t = Except.ok u) →
         ∃ us, starmapMifns tiles = Except.ok us) := by
  refine ⟨?_, ?_, ?_, ?_, ?_, ?_, ?_⟩
  · intro srs h1 h2 h3
    simp [spatialUnits, h1, h2, h3]
  · intro srs h1 h2 h3
    simp [spatialUnits, h1, h2, h3]
  · intro srs h1 h2
    simp [spatialUnits, h1, h2]
  · intro srs h1 h2
    simp [spatialUnits, h1, h2]
  · intro srs h1 h2
    simp [spatialUnits, h1, h2]
  · exact fun tiles t ht e he => starmapMifns_error tiles t ht e he
  · exact fun tiles h => starmapMifns_ok tiles h

/-- Witness for C4's amended statement on the four concrete spatial
references and two concrete batches. -/
theorem c4_units_mapping_witness :
    spatialUnits srsMeter = Except.ok (toL "m")
    ∧ spatialUnits srsKilometer = Except.ok (toL "km")
    ∧ spatialUnits srsDegree = Except.ok (toL "deg")
    ∧ spatialUnits srsFoot = Except.error (toL "Unsupported units: us survey foot")
    ∧ (∃ e2, starmapMifns [srsMeter, srsFoot] = Except.error e2)
    ∧ (∃ us, starmapMifns [srsMeter, srsDegree] = Except.ok us) :=
  ⟨c4_units_mapping_and_propagation.1 srsMeter (by decide) (by decide) (by decide),
   c4_units_mapping_and_propagation.2.1 srsKilometer (by decide) (by decide) (by decide),
   c4_units_mapping_and_propagation.2.2.1 srsDegree (by decide) (by decide),
   c4_units_mapping_and_propagation.2.2.2.1 srsFoot (by decide) (by decide),
   c4_units_mapping_and_propagation.2.2.2.2.2.1 [srsMeter, srsFoot] srsFoot (by decide)
     (toL "Unsupported units: us survey foot") (by decide),
   c4_units_mapping_and_propagation.2.2.2.2.2.2 [srsMeter, srsDegree] (by
     intro t ht
     rcases List.mem_cons.mp ht with h | ht2
     · exact ⟨toL "m", by rw [h]; decide⟩
     · rcases List.mem_cons.mp ht2 with h | h3
       · exact ⟨toL "deg", by rw [h]; decide⟩
       · exact absurd h3 (List.not_mem_nil t))⟩

/-- Claim C6, counterexample.  With a configured buffer distance of 0.2
(angular for a 4326 tile near the antimeridian), the expanded extent is
not clamped: its west edge falls below -180 and its north edge above 90,
because the source clamps only under the literal test
`if buffer_distance == 0.1` (line 369). -/
theorem c6_clamp_only_at_default_distance :
    (bufferExtent (2/10) fxExtent).minx < -180
    ∧ 90 < (bufferExtent (2/10) fxExtent).maxy := by
  norm_num [bufferExtent, fxExtent]

/-- Claim C6 as amended: the extent is expanded by the configured distance
on all four sides, and the clamp to the geographic domain applies exactly
when the configured distance equals 0.1, not for every angular distance. -/
theorem c6_buffer_clamping (d : ℚ) (e : Extent) :
    (d ≠ 1/10 → bufferExtent d e = ⟨e.minx - d, e.miny - d, e.maxx + d, e.maxy + d⟩)
    ∧ (d = 1/10 →
        -180 ≤ (bufferExtent d e).minx ∧ -90 ≤ (bufferExtent d e).miny
        ∧ (bufferExtent d e).maxx ≤ 180 ∧ (bufferExtent d e).maxy ≤ 90
        ∧ bufferExtent d e = ⟨max (e.minx - d) (-180), max (e.miny - d) (-90),
            min (e.maxx + d) 180, min (e.maxy + d) 90⟩) := by
  constructor
  · intro h
    simp only [bufferExtent]
    rw [if_neg h]
  · intro h
    subst h
    have heq : bufferExtent (1/10) e = ⟨max (e.minx - 1/10) (-180), max (e.miny - 1/10) (-90),
        min (e.maxx + 1/10) 180, min (e.maxy + 1/10) 90⟩ := by
      simp [bufferExtent]
    rw [heq]
    exact ⟨le_max_right _ _, le_max_right _ _, min_le_right _ _, min_le_right _ _, rfl⟩

/-- Witness for C6's amended statement at distance 0.2 (no clamp) and at
the default 0.1 (clamped). -/
theorem c6_buffer_clamping_witness :
    bufferExtent (2/10) fxExtent
      = ⟨fxExtent.minx - 2/10, fxExtent.miny - 2/10, fxExtent.maxx + 2/10, fxExtent.maxy + 2/10⟩
    ∧ (-180 ≤ (bufferExtent (1/10) fxExtent).minx ∧ -90 ≤ (bufferExtent (1/10) fxExtent).miny
        ∧ (bufferExtent (1/10) fxExtent).maxx ≤ 180 ∧ (bufferExtent (1/10) fxExtent).maxy ≤ 90
        ∧ bufferExtent (1/10) fxExtent = ⟨max (fxExtent.minx - 1/10) (-180),
            max (fxExtent.miny - 1/10) (-90), min (fxExtent.maxx + 1/10) 180,
            min (fxExtent.maxy + 1/10) 90⟩) :=
  ⟨(c6_buffer_clamping (2/10) fxExtent).1 (by norm_num),
   (c6_buffer_clamping (1/10) fxExtent).2 rfl⟩

/-- Claim C7: confirmed.  A run is classified as failed iff some stdout
line contains "error" case-insensitively and is not one of the benign
false positives (a line containing "Perimeter", "Area" or "Finder"), or
contains "PROBLEMS"; the exit code plays no part in this classification.
In particular "Finder error: ok" is benign and "PROBLEMS detected" is
failing. -/
theorem c7_solver_error_classification :
    (∀ lines : List Str, runFailedLines lines = true ↔ ∃ l ∈ lines,
       ((containsSub (toL "error") (l.map Char.toLower) = true ∧ benignLine l = false)
        ∨ containsSub (toL "PROBLEMS") l = true))
    ∧ errorLine (toL "Finder error: ok") = false
    ∧ errorLine (toL "PROBLEMS detected") = true := by
  refine ⟨fun lines => ?_, by decide, by decide⟩
  simp [runFailedLines, List.any_eq_true, errorLine, Bool.and_eq_true, Bool.or_eq_true,
    Bool.not_eq_true']

/-- Claim C5, counterexample.  Flow table `{1 ↦ 10}`, stream raster
`[[1, 2]]`: the code's left join keeps the row of the unmatched id 2 with
its flow filled to 0, so the written table is not "exactly the matched
rows" the claim (and the spec's "inner-joins") describes. -/
theorem c5_left_join_not_inner :
    create_row_col_id [(1, 10)] [[1, 2]] = some (false, [(0, 0, 1, 10), (0, 1, 2, 0)])
    ∧ rowColInnerJoinSpec [(1, 10)] [[1, 2]] = [(0, 0, 1, 10)]
    ∧ (0, 1, 2, 0) ∉ rowColInnerJoinSpec [(1, 10)] [[1, 2]] := by
  decide

/-- Claim C5 as amended: the builder left-joins the deduplicated flow
table onto the nonzero cells — the written table has exactly one row per
nonzero cell, carrying the matched flow value or 0 when the id is
unmatched (`fillna(0)`) — and when zero identifiers match it warns but
still completes with a result. -/
theorem c5_row_col_left_join (df0 : List (Nat × Nat)) (grid : List (List Nat))
    (h : dedupById df0 ≠ []) :
    create_row_col_id df0 grid
      = some (rowColWarned (dedupById df0) grid, rowColTable (dedupById df0) grid)
    ∧ (∀ r c v q, (r, c, v, q) ∈ rowColTable (dedupById df0) grid
        ↔ ((r, c, v) ∈ nonzeroCells grid ∧ q = (lookupId (dedupById df0) v).getD 0))
    ∧ (rowColWarned (dedupById df0) grid = true
        ↔ ∀ p ∈ dedupById df0,
            ((nonzeroCells grid).map (fun c => c.2.2)).contains p.1 = false) := by
  refine ⟨?_, ?_, ?_⟩
  · cases hd : dedupById df0 with
    | nil => exact absurd hd h
    | cons a l => simp [create_row_col_id, hd]
  · intro r c v q
    simp only [rowColTable, List.mem_map]
    constructor
    · rintro ⟨⟨r2, c2, v2⟩, hcell, heq⟩
      simp only [Prod.mk.injEq] at heq
      obtain ⟨h1, h2, h3, h4⟩ := heq
      subst h1
      subst h2
      subst h3
      exact ⟨hcell, h4.symm⟩
    · rintro ⟨hmem, hq⟩
      exact ⟨(r, c, v), hmem, by rw [hq]⟩
  · simp [rowColWarned, List.length_eq_zero, List.filter_eq_nil_iff]

/-- Witness for C5's amended statement at the counterexample's input. -/
theorem c5_row_col_left_join_witness :
    create_row_col_id [(1, 10)] [[1, 2]]
      = some (rowColWarned (dedupById [(1, 10)]) [[1, 2]],
              rowColTable (dedupById [(1, 10)]) [[1, 2]])
    ∧ (∀ r c v q, (r, c, v, q) ∈ rowColTable (dedupById [(1, 10)]) [[1, 2]]
        ↔ ((r, c, v) ∈ nonzeroCells [[1, 2]] ∧ q = (lookupId (dedupById [(1, 10)]) v).getD 0))
    ∧ (rowColWarned (dedupById [(1, 10)]) [[1, 2]] = true
        ↔ ∀ p ∈ dedupById [(1, 10)],
            ((nonzeroCells [[1, 2]]).map (fun c => c.2.2)).contains p.1 = false) :=
  c5_row_col_left_join [(1, 10)] [[1, 2]] (by decide)

/-! ### Helper lemmas for the artifact matcher -/

theorem foldl_setA_eq (key : Str → Str) (fs : List Str) :
    ∀ acc : List (Str × Str), (fs.map key).Nodup →
      (∀ f ∈ fs, key f ∉ acc.map Prod.fst) →
      fs.foldl (fun a f => setA a (key f) f) acc
        = (fs.map (fun f => (key f, f))).reverse ++ acc := by
  induction fs with
  | nil =>
    intro acc _ _
    simp
  | cons f rest ih =>
    intro acc hnd hdisj
    have hnd2 : key f ∉ rest.map key ∧ (rest.map key).Nodup := by
      simpa [List.nodup_cons] using hnd
    have hfk : key f ∉ acc.map Prod.fst := hdisj f (List.mem_cons_self f rest)
    have hfilter : acc.filter (fun kv => kv.1 != key f) = acc := by
      apply List.filter_eq_self.mpr
      intro kv hkv
      refine bne_iff_ne.mpr fun hh => hfk ?_
      exact hh ▸ List.mem_map_of_mem Prod.fst hkv
    have hsetA : setA acc (key f) f = (key f, f) :: acc := by
      simp only [setA, hfilter]
    have hdisj2 : ∀ g ∈ rest, key g ∉ ((key f, f) :: acc).map Prod.fst := by
      intro g hg hmem
      simp only [List.map_cons, List.mem_cons] at hmem
      rcases hmem with h1 | h2
      · exact hnd2.1 (h1 ▸ List.mem_map_of_mem key hg)
      · exact hdisj g (List.mem_cons_of_mem f hg) h2
    rw [List.foldl_cons, hsetA, ih ((key f, f) :: acc) hnd2.2 hdisj2]
    simp

theorem buildDict_nodup (key : Str → Str) (fs : List Str) (hnd : (fs.map key).Nodup) :
    buildDict key fs = (fs.map (fun f => (key f, f))).reverse := by
  have h := foldl_setA_eq key fs [] hnd (by simp)
  simpa [buildDict] using h

/-- Claim C8, counterexample.  Three tiles where two share the basename
stem `1` (same file name in different folders): the DEM dict collapses
them, so the matcher yields 2 bundles for 3 tiles and the tile
`a/1.tif` appears in no bundle — not "exactly one bundle per tile". -/
theorem c8_duplicate_key_drops_tile :
    (zipFiles [toL "a/1.tif", toL "b/1.tif", toL "2.tif"] [] [] [] []).card = 2
    ∧ ∀ b ∈ zipFiles [toL "a/1.tif", toL "b/1.tif", toL "2.tif"] [] [] [] [],
        b.1 ≠ toL "a/1.tif" := by
  decide

/-- Claim C8 as amended: when the driving tiles carry a recognized raster
extension and pairwise distinct ArtifactKeys, the matcher yields exactly
one bundle per tile; every tile appears even when the stage lists have no
entry for it, each absent stage field being the empty string, and every
lookupode is a total `dict.get` with default — nothing can throw. -/
theorem c8_matcher_completeness (dems strms lus rcs flows : List Str)
    (hval : ∀ f ∈ dems, validRasterExt f = true)
    (hkeys : (dems.map demKey).Nodup) :
    (zipFiles dems strms lus rcs flows).card = dems.length
    ∧ ∀ f ∈ dems, bundleFor strms lus rcs flows f ∈ zipFiles dems strms lus rcs flows := by
  have hfilter : dems.filter validRasterExt = dems := List.filter_eq_self.mpr hval
  have hblist :
      (buildDict demKey (dems.filter validRasterExt)).map (fun kv =>
        (kv.2, (lookupA (buildDict stageKey strms) kv.1).getD [],
         (lookupA (buildDict stageKey lus) kv.1).getD [],
         (lookupA (buildDict stageKey rcs) kv.1).getD [],
         (lookupA (buildDict stageKey flows) kv.1).getD []))
      = (dems.map (bundleFor strms lus rcs flows)).reverse := by
    rw [hfilter, buildDict_nodup demKey dems hkeys, List.map_reverse, List.map_map]
    rfl
  have hdnodup : dems.Nodup := List.Nodup.of_map demKey hkeys
  have hbnodup : ((dems.map (bundleFor strms lus rcs flows)).reverse).Nodup := by
    rw [List.nodup_reverse]
    refine List.Nodup.map_on ?_ hdnodup
    intro x _ y _ hxy
    have h1 := congrArg (fun t => t.1) hxy
    simpa [bundleFor] using h1
  constructor
  · unfold zipFiles
    rw [hblist, List.toFinset_card_of_nodup hbnodup]
    simp
  · intro f hf
    unfold zipFiles
    rw [hblist]
    rw [List.mem_toFinset, List.mem_reverse]
    exact List.mem_map_of_mem (bundleFor strms lus rcs flows) hf

/-- Witness for C8's amended statement at the spec's own scenario: three
tiles, stream rasters for two of them, one land-use mosaic, no row/col or
flow files. -/
theorem c8_matcher_completeness_witness :
    (zipFiles [toL "1.tif", toL "2.tif", toL "3.tif"]
        [toL "1__strm.tif", toL "2__strm.tif"] [toL "1__lu.vrt"] [] []).card = 3
    ∧ ∀ f ∈ [toL "1.tif", toL "2.tif", toL "3.tif"],
        bundleFor [toL "1__strm.tif", toL "2__strm.tif"] [toL "1__lu.vrt"] [] [] f
          ∈ zipFiles [toL "1.tif", toL "2.tif", toL "3.tif"]
              [toL "1__strm.tif", toL "2__strm.tif"] [toL "1__lu.vrt"] [] [] :=
  c8_matcher_completeness [toL "1.tif", toL "2.tif", toL "3.tif"]
    [toL "1__strm.tif", toL "2__strm.tif"] [toL "1__lu.vrt"] [] [] (by decide) (by decide)

/-- Claim C9: confirmed.  `_write` emits `Card\tArgument` exactly when the
argument is truthy and the bare card otherwise; in particular the
Parabolic bathymetry method (argument 0) and `Use_Prev_D_4_XS` with
setting 0 come out as bare cards with no tab and no value. -/
theorem c9_card_written_iff_truthy :
    (∀ out card arg, writeCard out card arg = out ++ [card] ↔ arg.truthy = false)
    ∧ (∀ out card arg, arg.truthy = true →
        writeCard out card arg = out ++ [card ++ '\t' :: arg.fmt])
    ∧ bathyMethodLines (toL "Parabolic") (PyVal.str (toL "0.2")) (PyVal.str (toL "0.2"))
        = [toL "Bathymetry_Method"]
    ∧ usePrevD4XSLines 0 = [toL "Use_Prev_D_4_XS"] := by
  refine ⟨?_, ?_, by decide, by decide⟩
  · intro out card arg
    cases htr : arg.truthy with
    | false => simp [writeCard, htr]
    | true => simp [writeCard, htr]
  · intro out card arg h
    simp [writeCard, h]

/-- Witness for C9 at concrete cards: a zero argument emits the bare card,
a nonzero one the tab-separated pair. -/
theorem c9_card_written_iff_truthy_witness :
    (writeCard [] (toL "Bathymetry_Method") (PyVal.int 0)
        = [] ++ [toL "Bathymetry_Method"] ↔ (PyVal.int 0).truthy = false)
    ∧ writeCard [] (toL "X_Section_Dist") (PyVal.int 1000)
        = [] ++ [toL "X_Section_Dist" ++ '\t' :: (PyVal.int 1000).fmt] :=
  ⟨c9_card_written_iff_truthy.1 [] (toL "Bathymetry_Method") (PyVal.int 0),
   c9_card_written_iff_truthy.2.1 [] (toL "X_Section_Dist") (PyVal.int 1000) (by decide)⟩

/-! ### Helper lemmas for the flood-spreader stage -/

theorem lookupA_filter_not_mem {β : Type} (l : List (Str × β)) (ps : List Str) (m : Str)
    (hm : m ∈ ps) :
    lookupA (l.filter (fun kv => !(ps.contains kv.1))) m = none := by
  induction l with
  | nil => rfl
  | cons kv rest ih =>
    simp only [List.elem_eq_mem] at ih ⊢
    by_cases hc : kv.1 ∈ ps
    · simp [List.filter_cons, hc, ih]
    · have hne : ¬ kv.1 = m := fun hh => hc (hh ▸ hm)
      simp [List.filter_cons, hc, lookupA, hne, ih]

theorem lookupA_filter_keep {β : Type} (l : List (Str × β)) (ps : List Str) (p : Str)
    (hp : p ∉ ps) :
    lookupA (l.filter (fun kv => !(ps.contains kv.1))) p = lookupA l p := by
  induction l with
  | nil => rfl
  | cons kv rest ih =>
    simp only [List.elem_eq_mem] at ih ⊢
    by_cases hc : kv.1 ∈ ps
    · have hne : ¬ kv.1 = p := fun hh => hp (hh ▸ hc)
      simp [List.filter_cons, hc, lookupA, hne, ih]
    · simp [List.filter_cons, hc, lookupA, ih]

theorem lookupA_setA_ne {β : Type} (l : List (Str × β)) (k q : Str) (v : β) (h : ¬ k = q) :
    lookupA (setA l k v) q = lookupA l q := by
  simp only [setA, lookupA, if_neg h]
  induction l with
  | nil => rfl
  | cons kv rest ih =>
    by_cases hfk : (kv.1 != k) = true
    · simp [List.filter_cons, hfk, lookupA, ih]
    · have hkk : kv.1 = k := by simpa using hfk
      have hkq : ¬ kv.1 = q := fun hh => h (by rw [← hkk]; exact hh)
      simp [List.filter_cons, hfk, lookupA, hkq, ih]

theorem lookupA_foldl_write (ws : List (Str × FileMeta)) :
    ∀ st : St, ∀ m : Str, m ∉ ws.map Prod.fst →
      lookupA ((ws.foldl (fun a pm => writeFile a pm.1 pm.2) st).files) m
        = lookupA st.files m := by
  induction ws with
  | nil =>
    intro st m _
    rfl
  | cons w rest ih =>
    intro st m hm
    simp only [List.map_cons, List.mem_cons] at hm
    push_neg at hm
    rw [List.foldl_cons, ih (writeFile st w.1 w.2) m hm.2]
    exact lookupA_setA_ne st.files w.1 m w.2 (fun hh => hm.1 hh.symm)

theorem update_hash_files (s s2 : St) (p : Str) (args : List Str)
    (h : update_hash s p args = some s2) : s2.files = s.files := by
  unfold update_hash at h
  cases hp : pyHash s p args with
  | none =>
    rw [hp] at h
    simp at h
  | some H =>
    rw [hp] at h
    simp at h
    rw [← h]

theorem runPost_files (s2 : St) (ws : List (Str × FileMeta)) (mifn : Str) (maps : List Str) :
    (runFloodspreaderPost s2 ws mifn maps).files
      = (ws.foldl (fun a pm => writeFile a pm.1 pm.2) s2).files := by
  unfold runFloodspreaderPost
  cases hu : update_hash (ws.foldl (fun a pm => writeFile a pm.1 pm.2) s2) mifn maps with
  | none => simp [hu]
  | some s4 => simp [hu, update_hash_files _ _ _ _ hu]

/-- Claim C10: confirmed.  The cache hit is exactly "overwrite not forced,
every output map exists, fingerprint matches"; on every other path that
reaches the subprocess, all output maps referenced by the control file are
removed first (other files untouched); and if the external run then fails
— writes none of them back — the previously existing outputs stay gone:
neither the error-classification block nor the final `update_hash` ever
restores a file. -/
theorem c10_floodspreader_deletes_before_run (overwrite : Bool) (s : St) (mifn : Str)
    (maps : List Str) :
    (floodspreaderPrep overwrite s mifn maps = PrepResult.cacheHit
      ↔ (overwrite = false ∧ (∀ m ∈ maps, isfile s m = true)
          ∧ hash_match s mifn maps = some true))
    ∧ (∀ s2, floodspreaderPrep overwrite s mifn maps = PrepResult.proceed s2 →
        (∀ m ∈ maps, isfile s2 m = false)
        ∧ (∀ p, p ∉ maps → lookupA s2.files p = lookupA s.files p)
        ∧ (∀ extWrites : List (Str × FileMeta), ∀ m ∈ maps, m ∉ extWrites.map Prod.fst →
            isfile (runFloodspreaderPost s2 extWrites mifn maps) m = false))
    ∧ (isfile s mifn = true → floodspreaderPrep overwrite s mifn maps ≠ PrepResult.raised) := by
  refine ⟨?_, ?_, ?_⟩
  · unfold floodspreaderPrep
    cases hov : overwrite with
    | true => simp
    | false =>
      by_cases hall : maps.all (fun m => isfile s m) = true
      · cases hm : hash_match s mifn maps with
        | none => simp [hall, hm]
        | some b =>
          cases b with
          | true =>
            simp [hall, hm]
            exact List.all_eq_true.mp hall
          | false => simp [hall, hm]
      · have hall2 : ¬ ∀ m ∈ maps, isfile s m = true := by
          simpa [List.all_eq_true] using hall
        have hallb : maps.all (fun m => isfile s m) = false := by
          simpa using hall
        simp [hallb, hall2]
  · intro s2 hpr
    have hs2 : s2 = deleteFiles s maps := by
      unfold floodspreaderPrep at hpr
      by_cases hc : (!overwrite && maps.all (fun m => isfile s m)) = true
      · rw [if_pos hc] at hpr
        cases hm : hash_match s mifn maps with
        | none =>
          rw [hm] at hpr
          cases hpr
        | some b =>
          cases b with
          | true =>
            rw [hm] at hpr
            cases hpr
          | false =>
            rw [hm] at hpr
            exact (PrepResult.proceed.inj hpr).symm
      · rw [if_neg hc] at hpr
        exact (PrepResult.proceed.inj hpr).symm
    subst hs2
    refine ⟨?_, ?_, ?_⟩
    · intro m hm
      have h3 : lookupA (deleteFiles s maps).files m = none :=
        lookupA_filter_not_mem s.files maps m hm
      simp [isfile, h3]
    · intro p hp
      exact lookupA_filter_keep s.files maps p hp
    · intro ws m hm hw
      have h1 := lookupA_foldl_write ws (deleteFiles s maps) m hw
      have h3 : lookupA (deleteFiles s maps).files m = none :=
        lookupA_filter_not_mem s.files maps m hm
      simp [isfile, runPost_files, h1, h3]
  · intro hmi hcontra
    unfold floodspreaderPrep at hcontra
    by_cases hc : (!overwrite && maps.all (fun m => isfile s m)) = true
    · rw [if_pos hc] at hcontra
      cases hm : hash_match s mifn maps with
      | none =>
        unfold hash_match pyHash at hm
        rw [hmi] at hm
        simp at hm
      | some b =>
        rw [hm] at hcontra
        cases b <;> cases hcontra
    · rw [if_neg hc] at hcontra
      cases hcontra

/-- Witness for C10 on a concrete forced-overwrite run: the existing flood
map is deleted before the subprocess and, the failed run writing nothing,
stays deleted afterwards. -/
theorem c10_floodspreader_witness :
    (∀ m ∈ [fxC10map], isfile (deleteFiles fxC10st [fxC10map]) m = false)
    ∧ (∀ p, p ∉ [fxC10map] →
        lookupA (deleteFiles fxC10st [fxC10map]).files p = lookupA fxC10st.files p)
    ∧ (∀ extWrites : List (Str × FileMeta), ∀ m ∈ [fxC10map], m ∉ extWrites.map Prod.fst →
        isfile (runFloodspreaderPost (deleteFiles fxC10st [fxC10map]) extWrites
          fxC10mifn [fxC10map]) m = false) :=
  (c10_floodspreader_deletes_before_run true fxC10st fxC10mifn [fxC10map]).2.1
    (deleteFiles fxC10st [fxC10map]) (by decide)

end AutoRouteSpec
